import Mathlib

/-!
Verification of the session-state lifecycle of a small Streamlit chat
front-end (src/app.py).  The app authenticates a user, keeps a per-session
state with three slots (start_chat : bool, thread_id : optional string,
messages : list of role/content records), and forwards user input to an
external assistant service.

The embedding below translates the session-state operations of src/app.py
into pure Lean functions.  External effects are made explicit parameters
and results:
  - the identifier of a freshly created thread is passed in as a string
    argument wherever the code calls client.beta.threads.create();
  - the external post-message / create_and_stream call of a turn is passed
    in as an Option String: some response when it succeeds with that full
    streamed text, none when it raises;
  - everything the code renders is collected in a list of UIEvent values,
    and the way a turn handler exits is recorded as a RunOutcome.
-/

/-- One chat message, the Python dict with keys role and content that
src/app.py appends to st.session_state.messages. -/
structure Message where
  role : String
  content : String
deriving DecidableEq, Repr

/-- The three chat slots of st.session_state used by src/app.py, once all of
them are present (after initialize_chat_variables has run). -/
structure SessionState where
  start_chat : Bool
  thread_id : Option String
  messages : List Message
deriving DecidableEq, Repr

/-- st.session_state before initialize_chat_variables: each slot may still be
absent (none) or already hold a value (some v). -/
structure RawSessionState where
  start_chat : Option Bool
  thread_id : Option (Option String)
  messages : Option (List Message)
deriving DecidableEq, Repr

/-- A full state viewed as a raw one in which every slot is present; this is
what a later initialize_chat_variables call sees. -/
def SessionState.toRaw (s : SessionState) : RawSessionState :=
  { start_chat := some s.start_chat
    thread_id := some s.thread_id
    messages := some s.messages }

/-- initialize_chat_variables of src/app.py: st.session_state.setdefault of
each slot against the defaults start_chat = False, thread_id = None,
messages = []; a slot already present keeps its value. -/
def initialize_chat_variables (raw : RawSessionState) : SessionState :=
  { start_chat := raw.start_chat.getD false
    thread_id := raw.thread_id.getD none
    messages := raw.messages.getD [] }

/-- The session state of a freshly loaded page: initialize_chat_variables on
a session in which no chat slot exists yet. -/
def initialState : SessionState :=
  initialize_chat_variables { start_chat := none, thread_id := none, messages := none }

/-- start_new_chat_session of src/app.py, with the id of the thread returned
by client.beta.threads.create() passed in as newThreadId.  The four
assignments of the source are reproduced in order. -/
def start_new_chat_session (newThreadId : String) (s : SessionState) : SessionState :=
  let s1 := { s with start_chat := true }
  let s2 := { s1 with thread_id := some newThreadId }
  let s3 := { s2 with messages := [] }
  { s3 with start_chat := true }

/-- reset_chat_session of src/app.py: messages cleared, start_chat cleared,
thread_id cleared, in the source's order. -/
def reset_chat_session (s : SessionState) : SessionState :=
  let s1 := { s with messages := [] }
  let s2 := { s1 with start_chat := false }
  { s2 with thread_id := none }

/-- What src/app.py renders onto the page, as far as the claims need it. -/
inductive UIEvent where
  /-- st.chat_message(role) with st.markdown(content) inside. -/
  | showMessage (role content : String)
  /-- st.error(text). -/
  | errorBanner (text : String)
  /-- st.write of a value that may be None (a missing config text). -/
  | writeText (text : Option String)
  /-- st.write_stream of the run's text deltas, response the full text. -/
  | streamedReply (response : String)
deriving DecidableEq, Repr

/-- How one call of process_and_display_chat_interaction exits. -/
inductive RunOutcome where
  /-- The early return of the recovery branch (thread_id was None). -/
  | recovered
  /-- Normal completion with the assistant's full streamed response. -/
  | completed (response : String)
  /-- The external assistant call raised; the exception propagates out of
  the handler and the framework surfaces it on the page. -/
  | raised
deriving DecidableEq, Repr

/-- process_and_display_chat_interaction of src/app.py.  The handler first
appends the user message and renders it; if st.session_state.thread_id is
None it shows an error banner, runs start_new_chat_session (newThreadId is
the id the client returns there) and returns early; otherwise it posts the
message and streams the run: callResult = some response models the external
calls succeeding with that full streamed text, callResult = none models
either external call raising, which aborts the handler before the assistant
message is appended. -/
def process_and_display_chat_interaction (user_input newThreadId : String)
    (callResult : Option String) (s : SessionState) :
    SessionState × List UIEvent × RunOutcome :=
  let appended : SessionState :=
    { s with messages := s.messages ++ [{ role := "user", content := user_input }] }
  match s.thread_id with
  | none =>
      (start_new_chat_session newThreadId appended,
        [UIEvent.showMessage "user" user_input,
          UIEvent.errorBanner "Thread ID is None. Starting a new chat session."],
        RunOutcome.recovered)
  | some _ =>
      match callResult with
      | none =>
          (appended, [UIEvent.showMessage "user" user_input], RunOutcome.raised)
      | some response =>
          ({ appended with
              messages := appended.messages ++
                [{ role := "assistant", content := response }] },
            [UIEvent.showMessage "user" user_input, UIEvent.streamedReply response],
            RunOutcome.completed response)

/-- The environment-backed configuration attributes of class Config in
src/app.py; os.getenv returns None for a missing variable, so every field is
optional. -/
structure Config where
  API_KEY : Option String
  ASSISTANT_KEY : Option String
  PAGE_TITLE : Option String
  WELCOME_MESSAGE : Option String
  INSTRUCTIONS : Option String
  USER_PROMPT : Option String
  BEGIN_MESSAGE : Option String
  EXIT_MESSAGE : Option String
  START_CHAT_BUTTON : Option String
  OPENAI_MODEL : Option String
  DISCLAIMER : Option String
  LOGO : Option String
deriving DecidableEq, Repr

/-- The class body of Config in src/app.py: each attribute is os.getenv of
its variable, with env the process environment as a partial map.  No value
is checked; a missing variable simply yields none. -/
def Config.load (env : String → Option String) : Config :=
  { API_KEY := env "API_KEY"
    ASSISTANT_KEY := env "ASSISTANT_KEY"
    PAGE_TITLE := env "PAGE_TITLE"
    WELCOME_MESSAGE := env "WELCOME_MESSAGE"
    INSTRUCTIONS := env "INSTRUCTIONS"
    USER_PROMPT := env "USER_PROMPT"
    BEGIN_MESSAGE := env "BEGIN_MESSAGE"
    EXIT_MESSAGE := env "EXIT_MESSAGE"
    START_CHAT_BUTTON := env "START_CHAT_BUTTON"
    OPENAI_MODEL := env "OPENAI_MODEL"
    DISCLAIMER := env "DISCLAIMER"
    LOGO := env "LOGO" }

/-- handle_chat_interaction of src/app.py.  With start_chat set it renders
the stored history, reads st.chat_input (user_input = none when nothing was
submitted this run; Python's truthiness also skips an empty string) and runs
the turn handler; otherwise it writes Config.BEGIN_MESSAGE, which may be
None. -/
def handle_chat_interaction (cfg : Config) (user_input : Option String)
    (newThreadId : String) (callResult : Option String) (s : SessionState) :
    SessionState × List UIEvent :=
  if s.start_chat then
    let history := s.messages.map fun m => UIEvent.showMessage m.role m.content
    match user_input with
    | some inp =>
        if inp = "" then (s, history)
        else
          let r := process_and_display_chat_interaction inp newThreadId callResult s
          (r.1, history ++ r.2.1)
    | none => (s, history)
  else
    (s, [UIEvent.writeText cfg.BEGIN_MESSAGE])

/-- The authenticated branch of the main block of src/app.py (the body under
authentication_status): initialize_chat_variables, then unconditionally
start_new_chat_session (newThreadId1 the id of the thread created there),
then handle_chat_interaction.  This runs on every script re-render of an
authenticated session. -/
def authenticated_render (cfg : Config) (raw : RawSessionState)
    (newThreadId1 : String) (user_input : Option String) (newThreadId2 : String)
    (callResult : Option String) : SessionState × List UIEvent :=
  let s0 := initialize_chat_variables raw
  let s1 := start_new_chat_session newThreadId1 s0
  handle_chat_interaction cfg user_input newThreadId2 callResult s1

/-- One session-state operation of src/app.py, with the external inputs it
consumes made explicit. -/
inductive Event where
  /-- initialize_chat_variables run again on a state whose slots all exist. -/
  | setdefaults
  /-- reset_chat_session. -/
  | reset
  /-- start_new_chat_session, the created thread's id carried along. -/
  | newChat (newThreadId : String)
  /-- process_and_display_chat_interaction on a submitted input. -/
  | submit (user_input newThreadId : String) (callResult : Option String)
deriving DecidableEq, Repr

/-- The state after one session-state operation. -/
def step (s : SessionState) : Event → SessionState
  | Event.setdefaults => initialize_chat_variables s.toRaw
  | Event.reset => reset_chat_session s
  | Event.newChat t => start_new_chat_session t s
  | Event.submit inp t c => (process_and_display_chat_interaction inp t c s).1

/-- The state after a sequence of session-state operations. -/
def run (s : SessionState) (evs : List Event) : SessionState :=
  evs.foldl step s

/-- The spec's thread invariant: thread_id is non-null whenever start_chat is
true and at least one message exists. -/
def threadPresentInv (s : SessionState) : Prop :=
  s.start_chat = true → s.messages ≠ [] → s.thread_id ≠ none

instance (s : SessionState) : Decidable (threadPresentInv s) := by
  unfold threadPresentInv; infer_instance

/-- The spec's initial/reset invariant: thread_id is null whenever messages
is empty and start_chat is false. -/
def resetInv (s : SessionState) : Prop :=
  s.messages = [] → s.start_chat = false → s.thread_id = none

instance (s : SessionState) : Decidable (resetInv s) := by
  unfold resetInv; infer_instance

/-! ## Basic lemmas about the operations -/

lemma start_new_chat_session_eq (t : String) (s : SessionState) :
    start_new_chat_session t s =
      { start_chat := true, thread_id := some t, messages := [] } := rfl

lemma setdefaults_on_full (s : SessionState) :
    initialize_chat_variables s.toRaw = s := rfl

lemma process_eq_of_thread_none (inp t : String) (c : Option String)
    (s : SessionState) (h : s.thread_id = none) :
    process_and_display_chat_interaction inp t c s =
      ({ start_chat := true, thread_id := some t, messages := [] },
        [UIEvent.showMessage "user" inp,
          UIEvent.errorBanner "Thread ID is None. Starting a new chat session."],
        RunOutcome.recovered) := by
  unfold process_and_display_chat_interaction
  rw [h]
  rfl

lemma process_eq_of_call_failed (inp t tid : String) (s : SessionState)
    (h : s.thread_id = some tid) :
    process_and_display_chat_interaction inp t none s =
      ({ s with messages := s.messages ++ [{ role := "user", content := inp }] },
        [UIEvent.showMessage "user" inp], RunOutcome.raised) := by
  unfold process_and_display_chat_interaction
  rw [h]

lemma process_eq_of_call_ok (inp t tid resp : String) (s : SessionState)
    (h : s.thread_id = some tid) :
    process_and_display_chat_interaction inp t (some resp) s =
      ({ s with messages := s.messages ++
          [{ role := "user", content := inp },
            { role := "assistant", content := resp }] },
        [UIEvent.showMessage "user" inp, UIEvent.streamedReply resp],
        RunOutcome.completed resp) := by
  unfold process_and_display_chat_interaction
  rw [h]
  simp

lemma step_preserves_threadPresentInv (s : SessionState) (e : Event)
    (h : threadPresentInv s) : threadPresentInv (step s e) := by
  cases e with
  | setdefaults => rwa [step, setdefaults_on_full]
  | reset => intro hc; simp [step, reset_chat_session] at hc
  | newChat t => intro _ _; simp [step, start_new_chat_session]
  | submit inp t c =>
      rcases hth : s.thread_id with _ | tid
      · rw [step, process_eq_of_thread_none inp t c s hth]
        intro _ _; simp
      · cases c with
        | none =>
            rw [step, process_eq_of_call_failed inp t tid s hth]
            intro _ _; simp [hth]
        | some resp =>
            rw [step, process_eq_of_call_ok inp t tid resp s hth]
            intro _ _; simp [hth]

lemma step_preserves_resetInv (s : SessionState) (e : Event)
    (h : resetInv s) : resetInv (step s e) := by
  cases e with
  | setdefaults => rwa [step, setdefaults_on_full]
  | reset => intro _ _; simp [step, reset_chat_session]
  | newChat t => intro _ hc; simp [step, start_new_chat_session] at hc
  | submit inp t c =>
      rcases hth : s.thread_id with _ | tid
      · rw [step, process_eq_of_thread_none inp t c s hth]
        intro _ hc; simp at hc
      · cases c with
        | none =>
            rw [step, process_eq_of_call_failed inp t tid s hth]
            intro hm; simp at hm
        | some resp =>
            rw [step, process_eq_of_call_ok inp t tid resp s hth]
            intro hm; simp at hm

lemma run_preserves {P : SessionState → Prop}
    (hstep : ∀ s e, P s → P (step s e)) :
    ∀ (evs : List Event) (s : SessionState), P s → P (run s evs)
  | [], _, h => h
  | e :: evs, s, h => run_preserves hstep evs (step s e) (hstep s e h)

/-! ## Claim theorems -/

/-- C1: the claimed persistence of thread_id and messages across page
re-renders fails on the code.  The authenticated branch of the main block
calls start_new_chat_session unconditionally on every script run, so a
re-render of a session that holds thread "thread-1" and two messages — with
no logout and no new-chat user action (no input submitted) — comes back
with a fresh thread id and an empty message list. -/
theorem authenticated_rerender_resets_thread_and_messages :
    (authenticated_render (Config.load fun _ => none)
        { start_chat := some true, thread_id := some (some "thread-1"),
          messages := some [{ role := "user", content := "hi" },
            { role := "assistant", content := "hello" }] }
        "thread-2" none "thread-3" none).1 =
      { start_chat := true, thread_id := some "thread-2", messages := [] } := rfl

/-- C2: the invariant that thread_id is non-null whenever start_chat is true
and messages is non-empty holds of the initial defaults, is preserved by
every session-state operation, hence holds in every reachable state; and a
submission handled while thread_id is unset ends with the freshly created
thread id stored and with the handler's recovery exit. -/
theorem thread_invariant_holds_and_recovery_on_violation :
    threadPresentInv initialState ∧
    (∀ (s : SessionState) (e : Event),
      threadPresentInv s → threadPresentInv (step s e)) ∧
    (∀ evs : List Event, threadPresentInv (run initialState evs)) ∧
    (∀ (s : SessionState) (inp t : String) (c : Option String),
      s.thread_id = none →
        (process_and_display_chat_interaction inp t c s).1.thread_id = some t ∧
        (process_and_display_chat_interaction inp t c s).2.2 =
          RunOutcome.recovered) := by
  refine ⟨by decide, step_preserves_threadPresentInv, ?_, ?_⟩
  · intro evs
    exact run_preserves step_preserves_threadPresentInv evs initialState (by decide)
  · intro s inp t c h
    rw [process_eq_of_thread_none inp t c s h]
    exact ⟨rfl, rfl⟩

/-- Witness for C2 at concrete inputs. -/
theorem thread_invariant_holds_and_recovery_on_violation_witness :
    threadPresentInv
      (run initialState [Event.newChat "t1", Event.submit "hi" "t2" (some "ok")]) ∧
    (process_and_display_chat_interaction "hi" "t3" none
        { start_chat := true, thread_id := none, messages := [] }).1.thread_id =
      some "t3" :=
  ⟨thread_invariant_holds_and_recovery_on_violation.2.2.1
      [Event.newChat "t1", Event.submit "hi" "t2" (some "ok")],
    (thread_invariant_holds_and_recovery_on_violation.2.2.2
        { start_chat := true, thread_id := none, messages := [] } "hi" "t3" none
        rfl).1⟩

/-- C3: a submission handled while thread_id is unset stores the freshly
created thread id, exits through the early-return recovery branch, and
leaves no assistant message in the log for that turn. -/
theorem submit_without_thread_recreates_no_assistant (s : SessionState)
    (inp t : String) (c : Option String) (h : s.thread_id = none) :
    (process_and_display_chat_interaction inp t c s).1.thread_id = some t ∧
    (process_and_display_chat_interaction inp t c s).2.2 = RunOutcome.recovered ∧
    ∀ m ∈ (process_and_display_chat_interaction inp t c s).1.messages,
      m.role ≠ "assistant" := by
  rw [process_eq_of_thread_none inp t c s h]
  refine ⟨rfl, rfl, ?_⟩
  intro m hm
  simp at hm

/-- Witness for C3 at concrete inputs. -/
theorem submit_without_thread_recreates_no_assistant_witness :
    (process_and_display_chat_interaction "hello" "t1" none
        { start_chat := true, thread_id := none, messages := [] }).1.thread_id =
      some "t1" ∧
    (process_and_display_chat_interaction "hello" "t1" none
        { start_chat := true, thread_id := none, messages := [] }).2.2 =
      RunOutcome.recovered :=
  ⟨(submit_without_thread_recreates_no_assistant
      { start_chat := true, thread_id := none, messages := [] } "hello" "t1" none
      rfl).1,
    (submit_without_thread_recreates_no_assistant
      { start_chat := true, thread_id := none, messages := [] } "hello" "t1" none
      rfl).2.1⟩

/-- C4: after the self-healing recovery of a submission with thread_id unset,
the message log is empty — the user message the handler appended first is
discarded by start_new_chat_session. -/
theorem recovery_discards_pending_user_message (s : SessionState)
    (inp t : String) (c : Option String) (h : s.thread_id = none) :
    (process_and_display_chat_interaction inp t c s).1.messages = [] := by
  rw [process_eq_of_thread_none inp t c s h]

/-- Witness for C4 at concrete inputs. -/
theorem recovery_discards_pending_user_message_witness :
    (process_and_display_chat_interaction "hello" "t1" (some "reply")
        { start_chat := true, thread_id := none,
          messages := [{ role := "user", content := "old" }] }).1.messages = [] :=
  recovery_discards_pending_user_message
    { start_chat := true, thread_id := none,
      messages := [{ role := "user", content := "old" }] } "hello" "t1"
    (some "reply") rfl

/-- C5: a successful turn on an existing thread changes the state exactly by
appending one user message with the submitted content and then one
assistant message with the streamed response, and thread_id keeps its
value across the turn. -/
theorem successful_turn_appends_user_then_assistant (s : SessionState)
    (inp newT t resp : String) (_hinp : inp ≠ "") (h : s.thread_id = some t) :
    process_and_display_chat_interaction inp newT (some resp) s =
      ({ s with messages := s.messages ++
          [{ role := "user", content := inp },
            { role := "assistant", content := resp }] },
        [UIEvent.showMessage "user" inp, UIEvent.streamedReply resp],
        RunOutcome.completed resp) ∧
    (process_and_display_chat_interaction inp newT (some resp) s).1.thread_id =
      s.thread_id := by
  refine ⟨process_eq_of_call_ok inp newT t resp s h, ?_⟩
  rw [process_eq_of_call_ok inp newT t resp s h]

/-- Witness for C5 at concrete inputs. -/
theorem successful_turn_appends_user_then_assistant_witness :
    process_and_display_chat_interaction "Hello" "t9" (some "Szia")
        { start_chat := true, thread_id := some "t1", messages := [] } =
      ({ start_chat := true, thread_id := some "t1",
          messages := [{ role := "user", content := "Hello" },
            { role := "assistant", content := "Szia" }] },
        [UIEvent.showMessage "user" "Hello", UIEvent.streamedReply "Szia"],
        RunOutcome.completed "Szia") :=
  (successful_turn_appends_user_then_assistant
      { start_chat := true, thread_id := some "t1", messages := [] }
      "Hello" "t9" "t1" "Szia" (by decide) rfl).1

/-- C6: start_new_chat_session clears all prior messages, whatever the
previous session state held. -/
theorem start_new_chat_clears_messages (s : SessionState) (t : String) :
    (start_new_chat_session t s).messages = [] := rfl

/-- C7: when the external assistant call of a turn fails (raises), the
handler exits with the exception propagating — surfaced by the framework —
and the log is not corrupted: the user message that triggered the failure
stays appended and no assistant message is appended for that turn. -/
theorem failed_call_keeps_user_message_no_assistant (s : SessionState)
    (inp newT t : String) (h : s.thread_id = some t) :
    process_and_display_chat_interaction inp newT none s =
      ({ s with messages := s.messages ++ [{ role := "user", content := inp }] },
        [UIEvent.showMessage "user" inp], RunOutcome.raised) :=
  process_eq_of_call_failed inp newT t s h

/-- Witness for C7 at concrete inputs. -/
theorem failed_call_keeps_user_message_no_assistant_witness :
    process_and_display_chat_interaction "Hello" "t9" none
        { start_chat := true, thread_id := some "t1", messages := [] } =
      ({ start_chat := true, thread_id := some "t1",
          messages := [{ role := "user", content := "Hello" }] },
        [UIEvent.showMessage "user" "Hello"], RunOutcome.raised) :=
  failed_call_keeps_user_message_no_assistant
    { start_chat := true, thread_id := some "t1", messages := [] }
    "Hello" "t9" "t1" rfl

/-- C8 counterexample: with every environment variable missing, Config loads
with none in each attribute and the page still renders — the idle branch
writes the missing BEGIN_MESSAGE as a None value instead of failing fast at
startup. -/
theorem missing_config_not_failing_fast :
    (Config.load fun _ => none).API_KEY = none ∧
    (Config.load fun _ => none).PAGE_TITLE = none ∧
    (Config.load fun _ => none).BEGIN_MESSAGE = none ∧
    (handle_chat_interaction (Config.load fun _ => none) none "t" none
        initialState).2 = [UIEvent.writeText none] :=
  ⟨rfl, rfl, rfl, rfl⟩

/-- C8 amended: a missing environment value is loaded as none and the
program proceeds with it; in particular, whenever BEGIN_MESSAGE is absent
from the environment, the idle page renders that none value as blank text
rather than raising a descriptive startup error. -/
theorem missing_config_loaded_as_none_and_rendered
    (env : String → Option String) (s : SessionState)
    (henv : env "BEGIN_MESSAGE" = none) (hs : s.start_chat = false) :
    (Config.load env).BEGIN_MESSAGE = none ∧
    (handle_chat_interaction (Config.load env) none "t" none s).2 =
      [UIEvent.writeText none] := by
  refine ⟨henv, ?_⟩
  unfold handle_chat_interaction
  rw [hs]
  simp [Config.load, henv]

/-- Witness for the amended C8 at concrete inputs. -/
theorem missing_config_loaded_as_none_and_rendered_witness :
    (Config.load fun k => if k = "API_KEY" then some "sk-1" else none).BEGIN_MESSAGE =
      none ∧
    (handle_chat_interaction
        (Config.load fun k => if k = "API_KEY" then some "sk-1" else none) none "t"
        none initialState).2 = [UIEvent.writeText none] :=
  missing_config_loaded_as_none_and_rendered
    (fun k => if k = "API_KEY" then some "sk-1" else none) initialState
    (by decide) rfl

/-- C9: the invariant that thread_id is null whenever messages is empty and
start_chat is false holds of the initial defaults, is preserved by every
session-state operation (setdefault initialization, reset, new-chat start,
submission handling), hence holds in every reachable state. -/
theorem reset_invariant_initial_and_preserved :
    resetInv initialState ∧
    (∀ (s : SessionState) (e : Event), resetInv s → resetInv (step s e)) ∧
    (∀ evs : List Event, resetInv (run initialState evs)) := by
  refine ⟨by decide, step_preserves_resetInv, ?_⟩
  intro evs
  exact run_preserves step_preserves_resetInv evs initialState (by decide)

/-- Witness for C9 at concrete inputs. -/
theorem reset_invariant_initial_and_preserved_witness :
    resetInv
      (step ⟨true, some "t1", [{ role := "user", content := "hi" }]⟩ Event.reset) ∧
    resetInv (run initialState [Event.newChat "t1", Event.reset]) :=
  ⟨reset_invariant_initial_and_preserved.2.1
      ⟨true, some "t1", [{ role := "user", content := "hi" }]⟩ Event.reset
      (by decide),
    reset_invariant_initial_and_preserved.2.2 [Event.newChat "t1", Event.reset]⟩

/-- C10: the postcondition of start_new_chat_session for every prior state:
start_chat is set, thread_id holds exactly the freshly created thread's id,
and messages is empty. -/
theorem start_new_chat_session_postcondition (s : SessionState) (t : String) :
    (start_new_chat_session t s).start_chat = true ∧
    (start_new_chat_session t s).thread_id = some t ∧
    (start_new_chat_session t s).messages = [] :=
  ⟨rfl, rfl, rfl⟩
